import Mathlib

/-!
Shallow embedding of the step-attempt layer of the Simbody integrator core
(src/trunk/Integrator/src/AbstractIntegratorRep.h) and of the analytic-geometry
representation classes (src/src/AnalyticGeometryRep.h), together with theorems
settling the specified properties of those functions.

`Real` in the C++ source is modelled by Lean's `ℝ`; `Vector` by `List ℝ`; the
opaque SimTK `State` by a type parameter `σ`.  C++ exceptions are modelled with
`Except Exc`; reference-parameter mutation is modelled by explicit state
passing: a callee that mutates its reference arguments receives their current
values and returns their new values, paired with either a normal return value
(`Except.ok`) or a thrown exception (`Except.error`).
-/

namespace SimTK

/-- C++ exceptions visible at this layer.  `errorCheck` is the exception class
raised by the SimTK error-check macro; `other` stands for every other thrown
exception (since every handler in the embedded source is a catch-all
`catch (...)`, the distinction never affects control flow). -/
inductive Exc where
  | errorCheck : Exc
  | other : Exc
deriving DecidableEq

/-- SimTK `Vector`: a vector of reals. -/
abbrev Vec := List ℝ

/-- The reference parameters of `attemptDAEStep` / `attemptODEStep` that the
callee may mutate, together with the advanced state the step writes into:
`yErrEst`, `errOrder`, `numIterations` (all passed by reference in the C++
source) and the integrator's advanced state. -/
structure DAEVars (σ : Type) where
  advancedState : σ
  yErrEst : Vec
  errOrder : Int
  numIterations : Int

/-- The environment `attemptDAEStep` reads through `IntegratorRep` accessors
and external collaborators.  `calcWeightedRMSNorm`, the weight vectors, the
tolerances and the projection operator are defined outside the embedded source
file, so they are kept abstract: each is an arbitrary field of the
environment.  `projectStateAndErrorEstimate` mutates the advanced state and
the error estimate in place and may throw; it is modelled as returning the
new values of both together with normal return or a thrown exception. -/
structure Env (σ : Type) where
  calcWeightedRMSNorm : Vec → Vec → ℝ
  getDynamicSystemWeights : Vec
  getDynamicSystemOneOverTolerances : Vec
  getAccuracyInUse : ℝ
  getConstraintToleranceInUse : ℝ
  userProjectEveryStep : Int
  getYErr : σ → Vec
  projectStateAndErrorEstimate : σ → Vec → (σ × Vec) × Except Exc Unit

/-- The `attemptODEStep` extension point: given the current values of the
mutable step variables, return their new values together with either the
converged flag (normal return) or a thrown exception. -/
abbrev ODEStepFn (σ : Type) := DAEVars σ → DAEVars σ × Except Exc Bool

/-- The default `AbstractIntegratorRep::attemptODEStep`.  Modelled from the
spec: the body of the C++ function is a single `SimTK_ERRCHK_ALWAYS` whose
condition is always false — a macro defined outside src/ that raises a hard,
loud error (it throws the SimTK error-check exception); the trailing
`return false;` is unreachable.  No step variable is touched first. -/
def attemptODEStep (σ : Type) : ODEStepFn σ :=
  fun vs => (vs, Except.error Exc.errorCheck)

/-- The projection limit computed inside `attemptDAEStep`:
`std::max(2*getConstraintToleranceInUse(), sqrt(getConstraintToleranceInUse()))`. -/
noncomputable def projectionLimit (consTol : ℝ) : ℝ :=
  max (2 * consTol) (Real.sqrt consTol)

/-- The local `rmsErr` of `attemptDAEStep`:
`calcWeightedRMSNorm(yErrEst, getDynamicSystemWeights())`. -/
def rmsErr (σ : Type) (env : Env σ) (vs2 : DAEVars σ) : ℝ :=
  env.calcWeightedRMSNorm vs2.yErrEst env.getDynamicSystemWeights

/-- The local `consErrAfterODE` of `attemptDAEStep`:
`calcWeightedRMSNorm(getAdvancedState().getYErr(),
getDynamicSystemOneOverTolerances())`. -/
def consErrAfterODE (σ : Type) (env : Env σ) (vs2 : DAEVars σ) : ℝ :=
  env.calcWeightedRMSNorm (env.getYErr vs2.advancedState)
    env.getDynamicSystemOneOverTolerances

/-- The default `AbstractIntegratorRep::attemptDAEStep`, parameterised by the
environment and by the (virtual) `attemptODEStep` it dispatches to.  The
result is the returned converged flag together with the final values of the
mutable step variables; the `Except` layer records whether an exception
escapes to the caller (none ever does: both throwing calls sit inside
catch-all handlers). -/
noncomputable def attemptDAEStep (σ : Type) (env : Env σ) (ode : ODEStepFn σ)
    (vs : DAEVars σ) : Except Exc (Bool × DAEVars σ) :=
  -- try { numIterations = 1; ODEconverged = attemptODEStep(...); }
  -- catch (...) { return false; }
  match ode { vs with numIterations := 1 } with
  | (vs2, Except.error _) => Except.ok (false, vs2)
  | (vs2, Except.ok odeConverged) =>
    if !odeConverged then Except.ok (false, vs2)
    else if rmsErr σ env vs2 > (2 : ℝ) ^ vs2.errOrder * env.getAccuracyInUse then
      Except.ok (true, vs2) -- this step converged, but isn't worth projecting
    else if consErrAfterODE σ env vs2 >
        projectionLimit env.getConstraintToleranceInUse then
      Except.ok (false, vs2) -- "convergence" failure
    else if env.userProjectEveryStep = 1
        ∨ consErrAfterODE σ env vs2 > env.getConstraintToleranceInUse then
      match env.projectStateAndErrorEstimate vs2.advancedState vs2.yErrEst with
      | ((s, e), Except.error _) =>
        Except.ok (false, { vs2 with advancedState := s, yErrEst := e })
      | ((s, e), Except.ok _) =>
        Except.ok (true, { vs2 with advancedState := s, yErrEst := e })
    else Except.ok (true, vs2)

/-- A concrete environment over the trivial state type, used to instantiate
the step-attempt theorems on concrete inputs.  The weighted-norm collaborator
returns the head of the measured vector, the constraint residual of the (only)
advanced state is the singleton `[consErr]`, and the projection operator is
the identity that returns normally. -/
def testEnv (acc consTol : ℝ) (ups : Int) (consErr : ℝ) : Env Unit where
  calcWeightedRMSNorm := fun v _ => v.headD 0
  getDynamicSystemWeights := []
  getDynamicSystemOneOverTolerances := []
  getAccuracyInUse := acc
  getConstraintToleranceInUse := consTol
  userProjectEveryStep := ups
  getYErr := fun _ => [consErr]
  projectStateAndErrorEstimate := fun s e => ((s, e), Except.ok ())

/-- Concrete initial step variables over the trivial state type. -/
def testVars (err : ℝ) (ord : Int) : DAEVars Unit :=
  { advancedState := (), yErrEst := [err], errOrder := ord, numIterations := 0 }

/-- A concrete `attemptODEStep` implementation that returns the given
converged flag and leaves every step variable as it received it. -/
def testODE (c : Bool) : ODEStepFn Unit := fun vs => (vs, Except.ok c)

/-- A concrete `attemptODEStep` implementation that throws. -/
def testODEThrow : ODEStepFn Unit := fun vs => (vs, Except.error Exc.other)

/-- A projection operator that throws (the constraint solver fails). -/
def testProjThrow : Unit → Vec → (Unit × Vec) × Except Exc Unit :=
  fun s e => ((s, e), Except.error Exc.other)

/-- A concrete environment whose projection operator throws and whose
project-every-step flag is set. -/
def testEnvProjThrow : Env Unit :=
  { testEnv 1 1 1 0 with projectStateAndErrorEstimate := testProjThrow }

/-! Analytic geometry (src/src/AnalyticGeometryRep.h). -/

/-- File-level constant: `static const Real Pi = std::acos(Real(-1));`. -/
noncomputable def Pi : ℝ := Real.arccos (-1)

/-- The concrete payloads of the `AnalyticGeometryRep` class hierarchy:
`AnalyticLineRep` holds a length, `AnalyticCircleRep` and `AnalyticSphereRep`
hold a radius. -/
inductive GeomKind where
  | line (length : ℝ)
  | circle (r : ℝ)
  | sphere (r : ℝ)

/-- An `AnalyticGeometryRep` object: its concrete-class payload plus the
base-class member `AnalyticGeometry* myHandle` (the owner of this rep),
modelled as an optional abstract address; `none` is the null pointer set by
the base-class constructor and by `clearMyHandle()`. -/
structure AnalyticGeometryRep where
  kind : GeomKind
  myHandle : Option Nat

/-- `clearMyHandle()`: sets `myHandle = 0`. -/
def AnalyticGeometryRep.clearMyHandle (g : AnalyticGeometryRep) :
    AnalyticGeometryRep :=
  { g with myHandle := none }

/-- The virtual `cloneAnalyticGeometryRep()`: every concrete override returns
`new <Concrete>Rep(*this)`, whose compiler-generated copy constructor copies
every member, the inherited `myHandle` included. -/
def AnalyticGeometryRep.cloneAnalyticGeometryRep (g : AnalyticGeometryRep) :
    AnalyticGeometryRep :=
  { kind := g.kind, myHandle := g.myHandle }

/-- `AnalyticGeometryRep::clone()`: builds the duplicate with
`cloneAnalyticGeometryRep()`, then calls `dup->clearMyHandle()`.  The call
does not touch the original object, so the result is modelled as the pair
(original after the call, returned duplicate). -/
def AnalyticGeometryRep.clone (g : AnalyticGeometryRep) :
    AnalyticGeometryRep × AnalyticGeometryRep :=
  (g, g.cloneAnalyticGeometryRep.clearMyHandle)

/-- An `AnalyticSphereRep` object: the concrete member `Real r`. -/
structure AnalyticSphereRep where
  r : ℝ

/-- The constructor `AnalyticSphereRep(const Real& rad) : r(r)`.  Its member
initialiser reads the member `r` itself — i.e. the indeterminate value the
member's storage happens to hold — rather than the parameter `rad`, which is
never used.  The indeterminate storage content is made explicit as the second
argument. -/
def AnalyticSphereRep.ofRadius (rad : ℝ) (indeterminate : ℝ) :
    AnalyticSphereRep :=
  { r := indeterminate }

/-- `getRadius()`: returns the member `r`. -/
def AnalyticSphereRep.getRadius (s : AnalyticSphereRep) : ℝ := s.r

/-- `calcVolume()`: `(Real(4)/3)*Pi*r*r*r`. -/
noncomputable def AnalyticSphereRep.calcVolume (s : AnalyticSphereRep) : ℝ :=
  ((4 : ℝ) / 3) * Pi * s.r * s.r * s.r

/-- `isPointInside(p)`: `p.normSqr() < r*r`, with the point modelled by its
squared norm. -/
def AnalyticSphereRep.isPointInside (s : AnalyticSphereRep)
    (pNormSqr : ℝ) : Prop :=
  pNormSqr < s.r * s.r

/-! Theorems. -/

/-! Helper lemmas: one per control path of `attemptDAEStep`. -/

/-- If the ODE formula throws, `attemptDAEStep` returns `false` with the step
variables as the ODE formula left them. -/
theorem daeStep_of_ode_error (σ : Type) (env : Env σ) (ode : ODEStepFn σ)
    (vs vs2 : DAEVars σ) (ex : Exc)
    (hode : ode { vs with numIterations := 1 } = (vs2, Except.error ex)) :
    attemptDAEStep σ env ode vs = Except.ok (false, vs2) := by
  simp only [attemptDAEStep, hode]

/-- If the ODE formula returns `false`, `attemptDAEStep` returns `false` with
the step variables as the ODE formula left them. -/
theorem daeStep_of_ode_false (σ : Type) (env : Env σ) (ode : ODEStepFn σ)
    (vs vs2 : DAEVars σ)
    (hode : ode { vs with numIterations := 1 } = (vs2, Except.ok false)) :
    attemptDAEStep σ env ode vs = Except.ok (false, vs2) := by
  simp only [attemptDAEStep, hode, Bool.not_false, if_true]

/-- If the ODE formula converges and the error norm exceeds the screen,
`attemptDAEStep` returns `true` with the step variables untouched. -/
theorem daeStep_of_rms_big (σ : Type) (env : Env σ) (ode : ODEStepFn σ)
    (vs vs2 : DAEVars σ)
    (hode : ode { vs with numIterations := 1 } = (vs2, Except.ok true))
    (hrms : rmsErr σ env vs2 > (2 : ℝ) ^ vs2.errOrder * env.getAccuracyInUse) :
    attemptDAEStep σ env ode vs = Except.ok (true, vs2) := by
  simp only [attemptDAEStep, hode, Bool.not_true, Bool.false_eq_true, if_false,
    if_pos hrms]

/-- If the ODE formula converges, the error norm passes the screen, and the
constraint residual exceeds the projection limit, `attemptDAEStep` returns
`false` with the step variables untouched. -/
theorem daeStep_of_cons_big (σ : Type) (env : Env σ) (ode : ODEStepFn σ)
    (vs vs2 : DAEVars σ)
    (hode : ode { vs with numIterations := 1 } = (vs2, Except.ok true))
    (hrms : rmsErr σ env vs2 ≤ (2 : ℝ) ^ vs2.errOrder * env.getAccuracyInUse)
    (hcons : consErrAfterODE σ env vs2 >
      projectionLimit env.getConstraintToleranceInUse) :
    attemptDAEStep σ env ode vs = Except.ok (false, vs2) := by
  simp only [attemptDAEStep, hode, Bool.not_true, Bool.false_eq_true, if_false,
    if_neg (not_lt.mpr hrms), if_pos hcons]

/-- On the projection path, a throwing projector makes `attemptDAEStep`
return `false`, with the advanced state and error estimate as the projector
left them. -/
theorem daeStep_of_project_error (σ : Type) (env : Env σ) (ode : ODEStepFn σ)
    (vs vs2 : DAEVars σ)
    (hode : ode { vs with numIterations := 1 } = (vs2, Except.ok true))
    (hrms : rmsErr σ env vs2 ≤ (2 : ℝ) ^ vs2.errOrder * env.getAccuracyInUse)
    (hcons : consErrAfterODE σ env vs2 ≤
      projectionLimit env.getConstraintToleranceInUse)
    (hdo : env.userProjectEveryStep = 1
      ∨ consErrAfterODE σ env vs2 > env.getConstraintToleranceInUse)
    (s : σ) (e : Vec) (ex : Exc)
    (hproj : env.projectStateAndErrorEstimate vs2.advancedState vs2.yErrEst =
      ((s, e), Except.error ex)) :
    attemptDAEStep σ env ode vs =
      Except.ok (false, { vs2 with advancedState := s, yErrEst := e }) := by
  simp only [attemptDAEStep, hode, Bool.not_true, Bool.false_eq_true, if_false,
    if_neg (not_lt.mpr hrms), if_neg (not_lt.mpr hcons), if_pos hdo, hproj]

/-- On the projection path, a normally returning projector makes
`attemptDAEStep` return `true`, with the advanced state and error estimate as
the projector left them. -/
theorem daeStep_of_project_ok (σ : Type) (env : Env σ) (ode : ODEStepFn σ)
    (vs vs2 : DAEVars σ)
    (hode : ode { vs with numIterations := 1 } = (vs2, Except.ok true))
    (hrms : rmsErr σ env vs2 ≤ (2 : ℝ) ^ vs2.errOrder * env.getAccuracyInUse)
    (hcons : consErrAfterODE σ env vs2 ≤
      projectionLimit env.getConstraintToleranceInUse)
    (hdo : env.userProjectEveryStep = 1
      ∨ consErrAfterODE σ env vs2 > env.getConstraintToleranceInUse)
    (s : σ) (e : Vec)
    (hproj : env.projectStateAndErrorEstimate vs2.advancedState vs2.yErrEst =
      ((s, e), Except.ok ())) :
    attemptDAEStep σ env ode vs =
      Except.ok (true, { vs2 with advancedState := s, yErrEst := e }) := by
  simp only [attemptDAEStep, hode, Bool.not_true, Bool.false_eq_true, if_false,
    if_neg (not_lt.mpr hrms), if_neg (not_lt.mpr hcons), if_pos hdo, hproj]

/-- When neither project-every-step is set nor the residual exceeds the
tolerance, `attemptDAEStep` returns `true` without projecting. -/
theorem daeStep_of_no_project (σ : Type) (env : Env σ) (ode : ODEStepFn σ)
    (vs vs2 : DAEVars σ)
    (hode : ode { vs with numIterations := 1 } = (vs2, Except.ok true))
    (hrms : rmsErr σ env vs2 ≤ (2 : ℝ) ^ vs2.errOrder * env.getAccuracyInUse)
    (hcons : consErrAfterODE σ env vs2 ≤
      projectionLimit env.getConstraintToleranceInUse)
    (hdo : ¬ (env.userProjectEveryStep = 1
      ∨ consErrAfterODE σ env vs2 > env.getConstraintToleranceInUse)) :
    attemptDAEStep σ env ode vs = Except.ok (true, vs2) := by
  simp only [attemptDAEStep, hode, Bool.not_true, Bool.false_eq_true, if_false,
    if_neg (not_lt.mpr hrms), if_neg (not_lt.mpr hcons), if_neg hdo]

/-- C1: with neither extension point overridden, the default `attemptODEStep`
does raise the hard error-check exception — but the default `attemptDAEStep`
traps it in its catch-all handler and returns `converged = false`, an ordinary
non-convergence result; no error ever propagates to the caller.  This refutes
the claim that the misconfiguration error reaches the caller. -/
theorem default_odeStep_error_is_swallowed (σ : Type) (env : Env σ)
    (vs : DAEVars σ) :
    attemptODEStep σ { vs with numIterations := 1 } =
      ({ vs with numIterations := 1 }, Except.error Exc.errorCheck) ∧
    attemptDAEStep σ env (attemptODEStep σ) vs =
      Except.ok (false, { vs with numIterations := 1 }) :=
  ⟨rfl, rfl⟩

/-- C2: for every constraint tolerance c > 0 the projection limit inside
`attemptDAEStep` is max(2c, √c), and in particular it maps 1e-12 to 1e-6,
1e-4 to 1e-2, 0.01 to 0.1, 0.5 to 1, and 1 to 2. -/
theorem projectionLimit_spec :
    (∀ c : ℝ, 0 < c → projectionLimit c = max (2 * c) (Real.sqrt c)) ∧
    projectionLimit (1 / 10 ^ 12) = 1 / 10 ^ 6 ∧
    projectionLimit (1 / 10 ^ 4) = 1 / 10 ^ 2 ∧
    projectionLimit 0.01 = 0.1 ∧
    projectionLimit 0.5 = 1 ∧
    projectionLimit 1 = 2 := by
  have h12 : Real.sqrt (1 / 10 ^ 12 : ℝ) = 1 / 10 ^ 6 := by
    rw [Real.sqrt_eq_iff_mul_self_eq_of_pos (by norm_num)]; norm_num
  have h4 : Real.sqrt (1 / 10 ^ 4 : ℝ) = 1 / 10 ^ 2 := by
    rw [Real.sqrt_eq_iff_mul_self_eq_of_pos (by norm_num)]; norm_num
  have h2 : Real.sqrt (0.01 : ℝ) = 0.1 := by
    rw [Real.sqrt_eq_iff_mul_self_eq_of_pos (by norm_num)]; norm_num
  have hhalf : Real.sqrt (0.5 : ℝ) ≤ 1 :=
    Real.sqrt_le_iff.mpr (by norm_num)
  refine ⟨fun c _ => rfl, ?_, ?_, ?_, ?_, ?_⟩
  · rw [projectionLimit, h12, max_eq_right (by norm_num)]
  · rw [projectionLimit, h4, max_eq_right (by norm_num)]
  · rw [projectionLimit, h2, max_eq_right (by norm_num)]
  · rw [projectionLimit, max_eq_left (by linarith)]; norm_num
  · rw [projectionLimit, Real.sqrt_one, max_eq_left (by norm_num)]; norm_num

/-- Witness for C2: the formula conjunct applied at the concrete tolerance 1. -/
theorem projectionLimit_spec_witness :
    projectionLimit 1 = max (2 * 1) (Real.sqrt 1) :=
  projectionLimit_spec.1 1 (by norm_num)

/-- C4: when the ODE formula returns without converging, `attemptDAEStep`
returns `converged = false` at once with the step variables exactly as the
ODE formula left them, and the result does not depend on the projection
operator (the projector is never invoked). -/
theorem attemptDAEStep_ode_not_converged (σ : Type) (env : Env σ)
    (ode : ODEStepFn σ) (vs vs2 : DAEVars σ)
    (hode : ode { vs with numIterations := 1 } = (vs2, Except.ok false)) :
    attemptDAEStep σ env ode vs = Except.ok (false, vs2) ∧
    ∀ p, attemptDAEStep σ { env with projectStateAndErrorEstimate := p } ode vs =
      Except.ok (false, vs2) :=
  ⟨daeStep_of_ode_false σ env ode vs vs2 hode,
   fun p => daeStep_of_ode_false σ
     { env with projectStateAndErrorEstimate := p } ode vs vs2 hode⟩

/-- Witness for C4: a concrete non-converging ODE formula. -/
theorem attemptDAEStep_ode_not_converged_witness :
    attemptDAEStep Unit (testEnv 1 1 0 0) (testODE false) (testVars 0 1) =
      Except.ok (false,
        { advancedState := (), yErrEst := [0], errOrder := 1,
          numIterations := 1 }) :=
  (attemptDAEStep_ode_not_converged Unit (testEnv 1 1 0 0) (testODE false)
    (testVars 0 1) _ rfl).1

/-- C5: when the ODE formula converges but the weighted RMS error norm
strictly exceeds 2^errOrder times the accuracy in use, `attemptDAEStep`
returns `converged = true` with the step variables exactly as the ODE formula
left them, independently of the projection operator, the constraint-residual
accessor, the one-over-tolerance weights and the constraint tolerance (the
projector is never invoked and the constraint residual is never computed or
checked). -/
theorem attemptDAEStep_err_too_big (σ : Type) (env : Env σ)
    (ode : ODEStepFn σ) (vs vs2 : DAEVars σ)
    (hode : ode { vs with numIterations := 1 } = (vs2, Except.ok true))
    (hrms : rmsErr σ env vs2 >
      (2 : ℝ) ^ vs2.errOrder * env.getAccuracyInUse) :
    attemptDAEStep σ env ode vs = Except.ok (true, vs2) ∧
    ∀ (p : σ → Vec → (σ × Vec) × Except Exc Unit) (g : σ → Vec) (tols : Vec)
      (ct : ℝ),
      attemptDAEStep σ
        { env with
          projectStateAndErrorEstimate := p
          getYErr := g
          getDynamicSystemOneOverTolerances := tols
          getConstraintToleranceInUse := ct } ode vs =
        Except.ok (true, vs2) :=
  ⟨daeStep_of_rms_big σ env ode vs vs2 hode hrms,
   fun p g tols ct => daeStep_of_rms_big σ
     { env with
       projectStateAndErrorEstimate := p
       getYErr := g
       getDynamicSystemOneOverTolerances := tols
       getConstraintToleranceInUse := ct } ode vs vs2 hode hrms⟩

/-- Witness for C5: a concrete converged step whose error norm 5 exceeds
2^1 times the accuracy 1. -/
theorem attemptDAEStep_err_too_big_witness :
    attemptDAEStep Unit (testEnv 1 1 0 0) (testODE true) (testVars 5 1) =
      Except.ok (true,
        { advancedState := (), yErrEst := [5], errOrder := 1,
          numIterations := 1 }) :=
  (attemptDAEStep_err_too_big Unit (testEnv 1 1 0 0) (testODE true)
    (testVars 5 1) _ rfl (by norm_num [rmsErr, testEnv, testVars])).1

/-- C3: when the ODE formula converges, the weighted RMS error norm is at
most 2^errOrder times the accuracy in use, and the weighted constraint
residual after the ODE step exceeds the projection limit, `attemptDAEStep`
returns `converged = false` (a convergence failure), not `converged = true`:
the constraint-residual check dominates whenever the error-norm screen
passes. -/
theorem attemptDAEStep_consErr_dominates (σ : Type) (env : Env σ)
    (ode : ODEStepFn σ) (vs vs2 : DAEVars σ)
    (hode : ode { vs with numIterations := 1 } = (vs2, Except.ok true))
    (hrms : rmsErr σ env vs2 ≤ (2 : ℝ) ^ vs2.errOrder * env.getAccuracyInUse)
    (hcons : consErrAfterODE σ env vs2 >
      projectionLimit env.getConstraintToleranceInUse) :
    attemptDAEStep σ env ode vs = Except.ok (false, vs2) :=
  daeStep_of_cons_big σ env ode vs vs2 hode hrms hcons

/-- Witness for C3: accuracy 1, error order 1, error norm 0 (screen passes),
constraint tolerance 1 (projection limit 2) and residual 3 > 2: the step is
reported as a convergence failure. -/
theorem attemptDAEStep_consErr_dominates_witness :
    attemptDAEStep Unit (testEnv 1 1 0 3) (testODE true) (testVars 0 1) =
      Except.ok (false,
        { advancedState := (), yErrEst := [0], errOrder := 1,
          numIterations := 1 }) :=
  attemptDAEStep_consErr_dominates Unit (testEnv 1 1 0 3) (testODE true)
    (testVars 0 1) _ rfl
    (by norm_num [rmsErr, testEnv, testVars])
    (by norm_num [consErrAfterODE, projectionLimit, testEnv, testVars,
      Real.sqrt_one])

/-- C6: on the projection-decision path (ODE converged, error-norm screen
passed, residual within the projection limit), the projector is invoked if
and only if project-every-step is requested or the residual strictly exceeds
the constraint tolerance — when invoked, its output (or failure) determines
the result, and when not invoked the result does not depend on the projection
operator at all — and a failing projector yields `converged = false`. -/
theorem attemptDAEStep_projection_decision (σ : Type) (env : Env σ)
    (ode : ODEStepFn σ) (vs vs2 : DAEVars σ)
    (hode : ode { vs with numIterations := 1 } = (vs2, Except.ok true))
    (hrms : rmsErr σ env vs2 ≤ (2 : ℝ) ^ vs2.errOrder * env.getAccuracyInUse)
    (hcons : consErrAfterODE σ env vs2 ≤
      projectionLimit env.getConstraintToleranceInUse) :
    ((env.userProjectEveryStep = 1
        ∨ consErrAfterODE σ env vs2 > env.getConstraintToleranceInUse) →
      (∀ (s : σ) (e : Vec) (ex : Exc),
        env.projectStateAndErrorEstimate vs2.advancedState vs2.yErrEst =
          ((s, e), Except.error ex) →
        attemptDAEStep σ env ode vs =
          Except.ok (false, { vs2 with advancedState := s, yErrEst := e })) ∧
      (∀ (s : σ) (e : Vec),
        env.projectStateAndErrorEstimate vs2.advancedState vs2.yErrEst =
          ((s, e), Except.ok ()) →
        attemptDAEStep σ env ode vs =
          Except.ok (true, { vs2 with advancedState := s, yErrEst := e }))) ∧
    (¬ (env.userProjectEveryStep = 1
        ∨ consErrAfterODE σ env vs2 > env.getConstraintToleranceInUse) →
      ∀ p, attemptDAEStep σ { env with projectStateAndErrorEstimate := p }
        ode vs = Except.ok (true, vs2)) :=
  ⟨fun hdo =>
    ⟨fun s e ex hproj =>
      daeStep_of_project_error σ env ode vs vs2 hode hrms hcons hdo s e ex hproj,
     fun s e hproj =>
      daeStep_of_project_ok σ env ode vs vs2 hode hrms hcons hdo s e hproj⟩,
   fun hdo p =>
    daeStep_of_no_project σ { env with projectStateAndErrorEstimate := p }
      ode vs vs2 hode hrms hcons hdo⟩

/-- Witness for C6: project-every-step set and a throwing projector: the
result is `converged = false`. -/
theorem attemptDAEStep_projection_decision_witness :
    attemptDAEStep Unit testEnvProjThrow (testODE true) (testVars 0 1) =
      Except.ok (false,
        { advancedState := (), yErrEst := [0], errOrder := 1,
          numIterations := 1 }) :=
  (((attemptDAEStep_projection_decision Unit testEnvProjThrow (testODE true)
      (testVars 0 1) _ rfl
      (by norm_num [rmsErr, testEnvProjThrow, testEnv, testVars])
      (by norm_num [consErrAfterODE, projectionLimit, testEnvProjThrow,
        testEnv, testVars, Real.sqrt_one])).1
    (Or.inl rfl)).1 () [0] Exc.other rfl)

/-- C7: any exception thrown by the ODE formula is caught by the default
`attemptDAEStep` and resolved locally as `converged = false`; no exception
from the ODE formula escapes to the caller. -/
theorem attemptDAEStep_ode_throw (σ : Type) (env : Env σ) (ode : ODEStepFn σ)
    (vs vs2 : DAEVars σ) (ex : Exc)
    (hode : ode { vs with numIterations := 1 } = (vs2, Except.error ex)) :
    attemptDAEStep σ env ode vs = Except.ok (false, vs2) := by
  simp only [attemptDAEStep, hode]

/-- Witness for C7: a concrete throwing ODE formula. -/
theorem attemptDAEStep_ode_throw_witness :
    attemptDAEStep Unit (testEnv 1 1 0 0) testODEThrow (testVars 0 1) =
      Except.ok (false,
        { advancedState := (), yErrEst := [0], errOrder := 1,
          numIterations := 1 }) :=
  attemptDAEStep_ode_throw Unit (testEnv 1 1 0 0) testODEThrow (testVars 0 1)
    _ Exc.other rfl

/-- C8: `attemptDAEStep` sets `numIterations` to 1 before consulting the ODE
formula, so any ODE formula that leaves `numIterations` untouched — a
non-iterative method — always reports `numIterations = 1`, whatever path the
step attempt takes. -/
theorem attemptDAEStep_numIterations_one (σ : Type) (env : Env σ)
    (ode : ODEStepFn σ) (vs : DAEVars σ)
    (hpres : ∀ (w w2 : DAEVars σ) (r : Except Exc Bool),
      ode w = (w2, r) → w2.numIterations = w.numIterations) :
    ∀ (b : Bool) (vsOut : DAEVars σ),
      attemptDAEStep σ env ode vs = Except.ok (b, vsOut) →
      vsOut.numIterations = 1 := by
  intro b vsOut h
  rcases hode : ode { vs with numIterations := 1 } with ⟨vs2, r⟩
  have h2 : vs2.numIterations = 1 := hpres _ _ _ hode
  rw [attemptDAEStep, hode] at h
  rcases r with ex | c
  · simp only [Except.ok.injEq, Prod.mk.injEq] at h
    rw [← h.2]; exact h2
  · cases c
    · simp only [Bool.not_false, if_true, Except.ok.injEq, Prod.mk.injEq] at h
      rw [← h.2]; exact h2
    · simp only [Bool.not_true, Bool.false_eq_true, if_false] at h
      split at h
      · simp only [Except.ok.injEq, Prod.mk.injEq] at h
        rw [← h.2]; exact h2
      · split at h
        · simp only [Except.ok.injEq, Prod.mk.injEq] at h
          rw [← h.2]; exact h2
        · split at h
          · rcases hproj : env.projectStateAndErrorEstimate vs2.advancedState
              vs2.yErrEst with ⟨⟨s, e⟩, pr⟩
            rw [hproj] at h
            rcases pr with pex | pu
            · simp only [Except.ok.injEq, Prod.mk.injEq] at h
              rw [← h.2]; exact h2
            · simp only [Except.ok.injEq, Prod.mk.injEq] at h
              rw [← h.2]; exact h2
          · simp only [Except.ok.injEq, Prod.mk.injEq] at h
            rw [← h.2]; exact h2

/-- Witness for C8: a non-iterative (numIterations-preserving) ODE formula
reports `numIterations = 1`. -/
theorem attemptDAEStep_numIterations_one_witness :
    ({ advancedState := (), yErrEst := [0], errOrder := 1,
       numIterations := 1 } : DAEVars Unit).numIterations = 1 :=
  attemptDAEStep_numIterations_one Unit (testEnv 1 1 0 0) (testODE false)
    (testVars 0 1)
    (fun w w2 r h => by injection h with h1 h2; rw [← h1]) false _ rfl

/-- C9: the claim that `AnalyticSphereRep(rad)` stores `rad` fails: the
constructor's initialiser is `r(r)`, reading the member's own indeterminate
storage content and ignoring `rad`, so `getRadius()` returns that
indeterminate value (here 0 for rad = 2) and `calcVolume()` is (4/3)·π·u³ of
the indeterminate value u, not of rad. -/
theorem analyticSphere_radius_bug :
    (AnalyticSphereRep.ofRadius 2 0).getRadius = 0 ∧
    (AnalyticSphereRep.ofRadius 2 0).getRadius ≠ 2 ∧
    ∀ rad u : ℝ, (AnalyticSphereRep.ofRadius rad u).getRadius = u ∧
      (AnalyticSphereRep.ofRadius rad u).calcVolume =
        4 / 3 * Pi * u * u * u := by
  refine ⟨rfl, ?_, fun rad u => ⟨rfl, rfl⟩⟩
  show (0 : ℝ) ≠ 2
  norm_num

/-- C10: `clone()` returns a duplicate whose owner-handle pointer is null and
whose concrete payload equals the original's, and the original object is left
unchanged by the call, whatever handle it had. -/
theorem clone_clears_duplicate_handle (g : AnalyticGeometryRep) :
    (g.clone).2.myHandle = none ∧ (g.clone).1 = g ∧
    (g.clone).2.kind = g.kind :=
  ⟨rfl, rfl, rfl⟩

end SimTK
